import Mathlib

/-!
Shallow embedding of the restaurant-booking conversation engine:
the booking context and its merge/validation policy (server/gemini.ts),
the deterministic fallback parser, the weather resolver (server/weather.ts),
the seating rule, the in-memory booking store (server/storage.ts) and the
special-cased dialogue-controller branches of the chat route
(server/routes.ts).  JavaScript strings are modelled as Lean `String`,
JavaScript numbers for guest counts as `Int`, temperatures as `ℚ`, and
absent/`undefined`/`null` values as `Option`.
-/

namespace Booking

/-! ## String helpers mirroring JavaScript primitives -/

/-- `p.isPrefixOf s` at the character-list level (JS `startsWith`). -/
def listHasPfx : List Char → List Char → Bool
  | _, [] => true
  | [], _ :: _ => false
  | a :: s, b :: p => a == b && listHasPfx s p

/-- Substring containment on character lists (JS `String.prototype.includes`). -/
def listHasSub : List Char → List Char → Bool
  | [], p => p.isEmpty
  | s@(_ :: rest), p => listHasPfx s p || listHasSub rest p

/-- JS `s.includes(pat)`. -/
def strIncludes (s pat : String) : Bool :=
  listHasSub s.toList pat.toList

/-- JS `s.toLowerCase()` (basic-latin case mapping, structurally recursive so
concrete instances evaluate inside the kernel). -/
def jsToLower (s : String) : String :=
  String.mk (s.data.map Char.toLower)

/-- Truthiness of a possibly-absent JS string: `undefined`, `null` and `""` are falsy. -/
def strTruthy : Option String → Bool
  | none => false
  | some s => !(s == "")

/-- Accumulator pass of `jsSplit` (structural recursion, so that concrete
instances evaluate inside the kernel). -/
def jsSplitAux (sep : Char) : List Char → List Char → List (List Char)
  | [], acc => [acc.reverse]
  | c :: rest, acc =>
    if c == sep then acc.reverse :: jsSplitAux sep rest []
    else jsSplitAux sep rest (c :: acc)

/-- JS `s.split(sep)` for the single-character separators the source uses. -/
def jsSplit (s : String) (sep : Char) : List String :=
  (jsSplitAux sep s.toList []).map String.mk

/-- JS `parts.join(sep)`. -/
def jsJoin (sep : String) : List String → String
  | [] => ""
  | [x] => x
  | x :: y :: xs => x ++ sep ++ jsJoin sep (y :: xs)

/-- JS `o || d` for a possibly-absent string (falsy values replaced by the default). -/
def strOrDefault (o : Option String) (d : String) : String :=
  match o with
  | none => d
  | some s => if s == "" then d else s

/-- JS `o || d` for a possibly-absent number (`0` is falsy). -/
def numOrDefault (o : Option Int) (d : Int) : Int :=
  match o with
  | none => d
  | some n => if n == 0 then d else n

/-- Value of a decimal digit string (the effect of JS `parseInt` on an all-digit match). -/
def digitsToNat (ds : List Char) : Nat :=
  ds.foldl (fun acc c => acc * 10 + (c.toNat - 48)) 0

/-- First maximal run of decimal digits in a string (the JS regex `/\d+/`). -/
def firstDigitRun : List Char → Option (List Char)
  | [] => none
  | c :: rest =>
    if c.isDigit then some (c :: rest.takeWhile Char.isDigit)
    else firstDigitRun rest

/-- JS `Math.round`: round half towards positive infinity. -/
def jsRound (q : ℚ) : ℤ := ⌊q + 1 / 2⌋

/-! ## Data model (shared/schema.ts) -/

/-- The `seatingPreference` enumeration. -/
inductive Pref where
  | indoor
  | outdoor
  | no_preference
deriving DecidableEq, Repr

/-- `WeatherInfo` of shared/schema.ts. -/
structure WeatherInfo where
  condition : String
  temperature : ℚ
  description : String
  icon : String
  humidity : Option ℚ
  windSpeed : Option ℚ
deriving DecidableEq, Repr

/-- `BookingContext` of shared/schema.ts.  `step` is kept as a string, as the
merge logic validates proposed steps against the twelve-value enumeration. -/
structure BookingContext where
  customerName : Option String
  numberOfGuests : Option Int
  bookingDate : Option String
  bookingTime : Option String
  cuisinePreference : Option String
  location : Option String
  specialRequests : Option String
  seatingPreference : Option Pref
  weatherInfo : Option WeatherInfo
  step : String
deriving DecidableEq, Repr

/-- The `extractedData` object of the model reply (all fields optional/null). -/
structure ExtractedData where
  customerName : Option String
  numberOfGuests : Option Int
  bookingDate : Option String
  bookingTime : Option String
  cuisinePreference : Option String
  location : Option String
  specialRequests : Option String
deriving DecidableEq, Repr

/-- The parsed JSON reply fed into `updateContext`. -/
structure ParsedReply where
  extractedData : Option ExtractedData
  nextStep : Option String
  isConfirmed : Option Bool
deriving DecidableEq, Repr

/-- `Booking` of shared/schema.ts (`status` is kept as a string). -/
structure Bkg where
  bookingId : String
  customerName : String
  numberOfGuests : Int
  bookingDate : String
  bookingTime : String
  cuisinePreference : String
  location : String
  specialRequests : Option String
  weatherInfo : Option WeatherInfo
  seatingPreference : Pref
  status : String
  createdAt : String
deriving DecidableEq, Repr

/-- `InsertBooking`: a `Booking` minus `bookingId`, `status`, `createdAt`. -/
structure InsertBooking where
  customerName : String
  numberOfGuests : Int
  bookingDate : String
  bookingTime : String
  cuisinePreference : String
  location : String
  specialRequests : Option String
  weatherInfo : Option WeatherInfo
  seatingPreference : Pref
deriving DecidableEq, Repr

/-- The engine's chat response shape. -/
structure ChatResponse where
  response : String
  context : BookingContext
  bookingComplete : Option Bool
  booking : Option Bkg
deriving DecidableEq, Repr

/-! ## Context merge / validation (server/gemini.ts: `updateContext`, `isValidStep`) -/

/-- The fixed twelve-value step enumeration of `isValidStep`. -/
def validSteps : List String :=
  ["greeting",
   "collect_name",
   "collect_guests",
   "collect_date",
   "collect_time",
   "collect_cuisine",
   "collect_location",
   "fetch_weather",
   "suggest_seating",
   "collect_special_requests",
   "confirm_booking",
   "booking_complete"]

/-- `isValidStep` of server/gemini.ts. -/
def isValidStep (step : String) : Bool :=
  validSteps.contains step

/-- The `extractedData` block of `updateContext`: the source performs a
sequence of guarded assignments to pairwise-distinct fields of a copy of
`context`; this is rendered as a single record update with one conditional
per field.  JS truthiness guards (`if (data.x)`) become `strTruthy` /
non-zero tests. -/
def applyExtracted (context : BookingContext) (data : ExtractedData) : BookingContext :=
  { context with
    customerName :=
      if strTruthy data.customerName then data.customerName else context.customerName
    numberOfGuests :=
      match data.numberOfGuests with
      | some n => if n == 0 then context.numberOfGuests else some (min 20 (max 1 n))
      | none => context.numberOfGuests
    bookingDate :=
      if strTruthy data.bookingDate then data.bookingDate else context.bookingDate
    bookingTime :=
      if strTruthy data.bookingTime then data.bookingTime else context.bookingTime
    cuisinePreference :=
      if strTruthy data.cuisinePreference then
        data.cuisinePreference
      else context.cuisinePreference
    location :=
      if strTruthy data.location then data.location else context.location
    specialRequests :=
      if strTruthy data.specialRequests then
        data.specialRequests
      else context.specialRequests }

/-- The trailing `nextStep` validation of `updateContext`. -/
def applyStep (context : BookingContext) (nextStep : Option String) : BookingContext :=
  match nextStep with
  | some s => if !(s == "") && isValidStep s then { context with step := s } else context
  | none => context

/-- `updateContext` of server/gemini.ts: apply the extracted fields, then the
validated step proposal. -/
def updateContext (context : BookingContext) (parsed : ParsedReply) : BookingContext :=
  applyStep
    (match parsed.extractedData with
     | none => context
     | some data => applyExtracted context data)
    parsed.nextStep

/-- `createFallbackResponse` of server/gemini.ts. -/
def createFallbackResponse (userMessage : String) (context : BookingContext) : ChatResponse :=
  let lowerMessage := jsToLower userMessage
  if context.step == "greeting" || strIncludes lowerMessage "hello" ||
      strIncludes lowerMessage "hi" then
    { response := "Hello! Welcome to our restaurant booking service. I\x27d be happy to help you reserve a table. May I have your name, please?"
      context := { context with step := "collect_name" }
      bookingComplete := none
      booking := none }
  else if context.step == "collect_name" && !(strTruthy context.customerName) then
    let words := jsSplit userMessage ' '
    let name :=
      if words.length ≤ 3 then userMessage else jsJoin " " (words.take 2)
    { response := "Nice to meet you, " ++ name ++ "! How many guests will be joining you for dinner?"
      context := { context with customerName := some name, step := "collect_guests" }
      bookingComplete := none
      booking := none }
  else
    match context.step == "collect_guests", firstDigitRun userMessage.toList with
    | true, some ds =>
      let guests : Int := min 20 (max 1 (digitsToNat ds : Int))
      { response := "Wonderful! A table for " ++ toString guests ++ ". What date would you like to book? You can say something like \x22tomorrow\x22 or give me a specific date."
        context := { context with numberOfGuests := some guests, step := "collect_date" }
        bookingComplete := none
        booking := none }
    | _, _ =>
      { response := "I\x27m sorry, I didn\x27t quite catch that. Could you please repeat?"
        context := context
        bookingComplete := none
        booking := none }

/-! ## Weather resolver (server/weather.ts) -/

/-- `capitalizeWords` applied to a single word:
`word.charAt(0).toUpperCase() + word.slice(1)`. -/
def capWord (w : String) : String :=
  match w.data with
  | [] => ""
  | c :: rest => String.mk (c.toUpper :: rest)

/-- `capitalizeWords` of server/weather.ts. -/
def capitalizeWords (s : String) : String :=
  jsJoin " " ((jsSplit s ' ').map capWord)

/-- The character-code sum `dateHash` inside `getMockWeather`. -/
def dateHash (date : String) : Nat :=
  date.toList.foldl (fun acc c => acc + c.toNat) 0

/-- One entry of the four-element `conditions` template array of `getMockWeather`. -/
structure MockTemplate where
  condition : String
  description : String
  temp : Int
deriving DecidableEq, Repr

/-- `getMockWeather` of server/weather.ts: the deterministic synthetic summary.
The array indexing `conditions[dateHash % 4]` is rendered as a four-way match. -/
def getMockWeather (date : String) : WeatherInfo :=
  let h := dateHash date
  let selected : MockTemplate :=
    match h % 4 with
    | 0 => ⟨"Clear", "Clear sky", 25⟩
    | 1 => ⟨"Clouds", "Partly cloudy", 22⟩
    | 2 => ⟨"Rain", "Light rain", 18⟩
    | _ => ⟨"Sunny", "Sunny and warm", 28⟩
  { condition := selected.condition
    temperature := (selected.temp : ℚ) + ((h % 5 : Nat) : ℚ) - 2
    description := selected.description
    icon := "01d"
    humidity := some (50 + ((h % 30 : Nat) : ℚ))
    windSpeed := some (2 + ((h % 8 : Nat) : ℚ)) }

/-- JS `parseInt` on an arbitrary string, as used on forecast timestamps:
`none` models `NaN` (every comparison with `NaN` is false). -/
def parseIntJS (s : String) : Option Nat :=
  match s.toList with
  | c :: rest =>
    if c.isDigit then some (digitsToNat (c :: rest.takeWhile Char.isDigit)) else none
  | [] => none

/-- One entry of the 3-hourly forecast list, with the first `weather` element
flattened into it (the source reads `item.weather[0]`). -/
structure ForecastItem where
  dt_txt : String
  wMain : String
  wDescription : String
  wIcon : String
  temp : ℚ
  humidity : ℚ
  windSpeed : ℚ
deriving DecidableEq, Repr

/-- The forecast-entry selection of `getForecastWeather` (server/weather.ts)
after a successful fetch, as a function of the decoded forecast list: prefer
a midday (12:00-15:00) entry for the target date, then any entry for that
date, then the first entry overall.  A malformed `dt_txt` would make the
source throw (and the caller fall back to the synthetic summary); here it
simply fails the date/hour filters. -/
def selectForecast (list : List ForecastItem) (date : String) : Option ForecastItem :=
  let targetDate := (jsSplit date 'T').headD ""
  let targetForecast := list.find? (fun item =>
    let parts := jsSplit item.dt_txt ' '
    let itemDate := parts.headD ""
    let itemHour := parseIntJS ((jsSplit (parts.getD 1 "") ':').headD "")
    itemDate == targetDate &&
      match itemHour with
      | some h => decide (12 ≤ h) && decide (h ≤ 15)
      | none => false)
  (targetForecast.orElse (fun _ =>
    list.find? (fun item => (jsSplit item.dt_txt ' ').headD "" == targetDate))).orElse
    (fun _ => list.head?)

/-- The summary assembled from the selected forecast entry (`null` when the
list is empty). -/
def getForecastWeather (list : List ForecastItem) (date : String) : Option WeatherInfo :=
  match selectForecast list date with
  | none => none
  | some f =>
    some { condition := f.wMain
           temperature := f.temp
           description := capitalizeWords f.wDescription
           icon := f.wIcon
           humidity := some f.humidity
           windSpeed := some f.windSpeed }

/-- The decoded current-weather response, with `weather[0]` flattened. -/
structure CurrentWeather where
  wMain : String
  wDescription : String
  wIcon : String
  temp : ℚ
  humidity : ℚ
  windSpeed : ℚ
deriving DecidableEq, Repr

/-- `getCurrentWeatherAsEstimate` of server/weather.ts after a successful fetch. -/
def getCurrentWeatherAsEstimate (data : CurrentWeather) : WeatherInfo :=
  { condition := data.wMain
    temperature := data.temp
    description := capitalizeWords data.wDescription ++ " (estimate)"
    icon := data.wIcon
    humidity := some data.humidity
    windSpeed := some data.windSpeed }

/-- `getWeatherForDate` of server/weather.ts.  Network effects are shallowly
embedded: `hasApiKey` is the presence of the upstream credential, `diffDays`
the computed day difference, and the two possible upstream calls are passed as
`Except`-valued results (`Except.error` models a thrown fetch/decode error,
which the surrounding `try`/`catch` converts into the synthetic summary). -/
def getWeatherForDate (hasApiKey : Bool) (diffDays : Int)
    (forecastCall estimateCall : Except Unit (Option WeatherInfo))
    (date : String) : Option WeatherInfo :=
  if !hasApiKey then some (getMockWeather date)
  else if diffDays < 0 then some (getMockWeather date)
  else
    match (if diffDays ≤ 5 then forecastCall else estimateCall) with
    | .error _ => some (getMockWeather date)
    | .ok w => w

/-! ## Seating rule (server/gemini.ts: `generateSeatingResponse`) -/

/-- The result of `generateSeatingResponse`. -/
structure SeatingResponse where
  response : String
  preference : Pref
deriving DecidableEq, Repr

/-- `generateSeatingResponse` of server/gemini.ts. -/
def generateSeatingResponse (weatherCondition : String) (temperature : ℚ) : SeatingResponse :=
  let condition := jsToLower weatherCondition
  if strIncludes condition "rain" || strIncludes condition "storm" ||
      strIncludes condition "snow" then
    { response := "It looks like there might be some " ++ condition ++ " on your booking date. I\x27d recommend our cozy indoor seating area where you can enjoy your meal comfortably. Does that sound good?"
      preference := .indoor }
  else if temperature > 30 then
    { response := "It\x27s going to be quite warm at " ++ toString (jsRound temperature) ++ "°C on your booking date. Our air-conditioned indoor seating would be more comfortable. Would you prefer that?"
      preference := .indoor }
  else if temperature < 10 then
    { response := "It\x27s going to be a bit chilly at " ++ toString (jsRound temperature) ++ "°C on your booking date. Our warm indoor seating would be perfect. Sound good?"
      preference := .indoor }
  else if strIncludes condition "clear" || strIncludes condition "sunny" then
    { response := "Great news! The weather looks beautiful on your booking date - " ++ toString (jsRound temperature) ++ "°C and " ++ condition ++ "! Would you like outdoor seating to enjoy the lovely weather?"
      preference := .outdoor }
  else
    { response := "The weather on your booking date looks fine - around " ++ toString (jsRound temperature) ++ "°C. Would you prefer indoor or outdoor seating?"
      preference := .no_preference }

/-! ## In-memory booking store (server/storage.ts: `MemStorage`) -/

/-- The `Map<string, Booking>` backing `MemStorage`, as an association list
with `Map.set` replace-or-append semantics. -/
abbrev Store := List (String × Bkg)

/-- `Map.get` (and hence `MemStorage.getBooking`). -/
def storeGet (s : Store) (id : String) : Option Bkg :=
  match List.find? (fun p => p.1 == id) s with
  | some p => some p.2
  | none => none

/-- `Map.set`: replace the binding if the key exists, else append it. -/
def storeSet : Store → String → Bkg → Store
  | [], id, b => [(id, b)]
  | p :: rest, id, b => if p.1 == id then (id, b) :: rest else p :: storeSet rest id b

/-- `MemStorage.createBooking`: generates `BK-` + first 8 uuid characters
uppercased, stamps `status = "confirmed"` and the creation time, and stores
the booking under its id.  The uuid and timestamp are passed in (the source
draws them from `randomUUID()` and `new Date()`). -/
def createBooking (s : Store) (ins : InsertBooking) (uuid now : String) : Bkg × Store :=
  let bookingId := "BK-" ++ String.mk ((uuid.toList.take 8).map Char.toUpper)
  let booking : Bkg :=
    { bookingId := bookingId
      customerName := ins.customerName
      numberOfGuests := ins.numberOfGuests
      bookingDate := ins.bookingDate
      bookingTime := ins.bookingTime
      cuisinePreference := ins.cuisinePreference
      location := ins.location
      specialRequests := ins.specialRequests
      weatherInfo := ins.weatherInfo
      seatingPreference := ins.seatingPreference
      status := "confirmed"
      createdAt := now }
  (booking, storeSet s bookingId booking)

/-- `MemStorage.deleteBooking`: a soft cancel — if the id exists the stored
record's status becomes `"cancelled"` and `true` is returned; otherwise
`false`, with the store untouched.  The record is never removed. -/
def deleteBooking (s : Store) (id : String) : Bool × Store :=
  match storeGet s id with
  | some b => (true, storeSet s id { b with status := "cancelled" })
  | none => (false, s)

/-- `MemStorage.updateBookingStatus`. -/
def updateBookingStatus (s : Store) (id : String) (status : String) :
    Option Bkg × Store :=
  match storeGet s id with
  | some b => (some { b with status := status }, storeSet s id { b with status := status })
  | none => (none, s)

/-! ## Dialogue controller: the special-cased chat branches (server/routes.ts) -/

/-- `buildBookingSummary` of server/routes.ts (`fmtDate` abstracts the
locale-dependent `formatDate`). -/
def buildBookingSummary (fmtDate : String → String) (context : BookingContext) : String :=
  let lines : List String :=
    (match context.customerName with
     | some n => if n == "" then [] else ["Name: " ++ n]
     | none => []) ++
    (match context.numberOfGuests with
     | some g => if g == 0 then [] else ["Party size: " ++ toString g ++ " guests"]
     | none => []) ++
    (match context.bookingDate with
     | some d => if d == "" then [] else ["Date: " ++ fmtDate d]
     | none => []) ++
    (match context.bookingTime with
     | some t => if t == "" then [] else ["Time: " ++ t]
     | none => []) ++
    (match context.cuisinePreference with
     | some c => if c == "" then [] else ["Cuisine: " ++ c]
     | none => []) ++
    (match context.location with
     | some l => if l == "" then [] else ["Location: " ++ l]
     | none => []) ++
    (match context.seatingPreference with
     | some Pref.indoor => ["Seating: indoor"]
     | some Pref.outdoor => ["Seating: outdoor"]
     | _ => []) ++
    (match context.specialRequests with
     | some r => if r == "" then [] else ["Special requests: " ++ r]
     | none => [])
  String.intercalate "\n" lines

/-- The confirmation keyword test of the `confirm_booking` branch. -/
def isConfirmedMsg (message : String) : Bool :=
  let lowerMessage := jsToLower message
  strIncludes lowerMessage "yes" ||
  strIncludes lowerMessage "confirm" ||
  strIncludes lowerMessage "correct" ||
  strIncludes lowerMessage "looks good" ||
  strIncludes lowerMessage "that\x27s right"

/-- Outcome of one pass through the special-cased `if` chain of the chat
route: either a directly assembled reply (with the possibly-updated store),
or delegation to the NLU path with the step-adjusted context. -/
inductive ChatOutcome where
  | reply (resp : ChatResponse) (store : Store)
  | delegate (ctx : BookingContext) (store : Store)
deriving Repr

/-- The special-cased step dispatch of `POST /api/chat` in server/routes.ts.
`weather` stands for the awaited `getWeatherForDate` result on the
`fetch_weather` branch, `today` for `new Date().toISOString().split("T")[0]`,
`now`/`uuid` feed `createBooking`, and `fmtDate` abstracts the
locale-dependent `formatDate`.

Each source `if` returns when it fires; a non-firing branch (weather `null`,
or `confirm_booking` without a confirmation keyword) falls through past the
remaining step checks — which cannot match, the step being fixed — to the
NLU delegation, where a `greeting` step is replaced by `collect_name`. -/
def chatHandler (message : String) (context : BookingContext)
    (weather : Option WeatherInfo) (today now uuid : String)
    (fmtDate : String → String) (store : Store) : ChatOutcome :=
  if context.step == "fetch_weather" && strTruthy context.location &&
      strTruthy context.bookingDate && weather.isSome then
    match weather with
    | some w =>
      let seatingResponse := generateSeatingResponse w.condition w.temperature
      .reply
        { response := seatingResponse.response
          context :=
            { context with
              weatherInfo := some w
              seatingPreference := some seatingResponse.preference
              step := "suggest_seating" }
          bookingComplete := none
          booking := none }
        store
    | none => .delegate context store
  else if context.step == "suggest_seating" then
    let lowerMessage := jsToLower message
    let preference : Pref :=
      if strIncludes lowerMessage "outdoor" || strIncludes lowerMessage "outside" ||
          strIncludes lowerMessage "patio" then
        .outdoor
      else if strIncludes lowerMessage "indoor" || strIncludes lowerMessage "inside" then
        .indoor
      else if strIncludes lowerMessage "yes" || strIncludes lowerMessage "sure" ||
          strIncludes lowerMessage "sounds good" then
        context.seatingPreference.getD .indoor
      else
        context.seatingPreference.getD .no_preference
    .reply
      { response := "Great choice! " ++ (if preference = .outdoor then "Outdoor" else "Indoor") ++ " seating it is. Do you have any special requests? For example, is this for a birthday, anniversary, or do you have any dietary requirements? If not, just say \x22no special requests\x22."
        context :=
          { context with
            seatingPreference := some preference
            step := "collect_special_requests" }
        bookingComplete := none
        booking := none }
      store
  else if context.step == "collect_special_requests" then
    let lowerMessage := jsToLower message
    let hasNoRequests := strIncludes lowerMessage "no" || strIncludes lowerMessage "none" ||
      strIncludes lowerMessage "nothing"
    let specialRequests := if hasNoRequests then none else some message
    let updated : BookingContext :=
      { context with
        specialRequests := specialRequests
        step := "confirm_booking" }
    .reply
      { response := "Perfect! Let me confirm your booking details:\n\n" ++ buildBookingSummary fmtDate updated ++ "\n\nIs everything correct? Say \x22yes\x22 or \x22confirm\x22 to complete your booking, or let me know what you\x27d like to change."
        context := updated
        bookingComplete := none
        booking := none }
      store
  else if context.step == "confirm_booking" && isConfirmedMsg message then
    let bookingData : InsertBooking :=
      { customerName := strOrDefault context.customerName "Guest"
        numberOfGuests := numOrDefault context.numberOfGuests 2
        bookingDate := strOrDefault context.bookingDate today
        bookingTime := strOrDefault context.bookingTime "7:00 PM"
        cuisinePreference := strOrDefault context.cuisinePreference "Any"
        location := strOrDefault context.location "Unknown"
        specialRequests := context.specialRequests
        weatherInfo := context.weatherInfo
        seatingPreference := context.seatingPreference.getD .no_preference }
    let created := createBooking store bookingData uuid now
    let booking := created.1
    .reply
      { response := "Wonderful! Your booking has been confirmed! Your booking ID is " ++ booking.bookingId ++ ". We look forward to seeing you, " ++ booking.customerName ++ ", on " ++ fmtDate booking.bookingDate ++ " at " ++ booking.bookingTime ++ ". Thank you for choosing our restaurant!"
        context := { context with step := "booking_complete" }
        bookingComplete := some true
        booking := some booking }
      created.2
  else
    .delegate
      (if context.step == "greeting" then { context with step := "collect_name" } else context)
      store

/-- The regular expression `^BK-[A-Z0-9]{8}$` over the booking identifier. -/
def matchesBookingIdFormat (s : String) : Bool :=
  match s.toList with
  | 'B' :: 'K' :: '-' :: rest =>
    rest.length == 8 && rest.all (fun c => c.isUpper || c.isDigit)
  | _ => false

/-- Lowercase hexadecimal alphabet: the characters `randomUUID()` draws the
first eight identifier characters from. -/
def isLowerHex (c : Char) : Bool :=
  c.isDigit || (decide ('a' ≤ c) && decide (c ≤ 'f'))

/-! ## Projection lemmas for the context merge -/

/-- The extraction's candidate value for a given field, `none` when the whole
`extractedData` object is absent. -/
def extField (get : ExtractedData → Option String) (parsed : ParsedReply) : Option String :=
  match parsed.extractedData with
  | some d => get d
  | none => none

/-- The extraction's candidate guest count. -/
def extGuests (parsed : ParsedReply) : Option Int :=
  match parsed.extractedData with
  | some d => d.numberOfGuests
  | none => none

lemma applyStep_customerName (ctx : BookingContext) (ns : Option String) :
    (applyStep ctx ns).customerName = ctx.customerName := by
  cases ns <;> simp only [applyStep] <;> split <;> rfl

lemma applyStep_numberOfGuests (ctx : BookingContext) (ns : Option String) :
    (applyStep ctx ns).numberOfGuests = ctx.numberOfGuests := by
  cases ns <;> simp only [applyStep] <;> split <;> rfl

lemma applyStep_bookingDate (ctx : BookingContext) (ns : Option String) :
    (applyStep ctx ns).bookingDate = ctx.bookingDate := by
  cases ns <;> simp only [applyStep] <;> split <;> rfl

lemma applyStep_bookingTime (ctx : BookingContext) (ns : Option String) :
    (applyStep ctx ns).bookingTime = ctx.bookingTime := by
  cases ns <;> simp only [applyStep] <;> split <;> rfl

lemma applyStep_cuisinePreference (ctx : BookingContext) (ns : Option String) :
    (applyStep ctx ns).cuisinePreference = ctx.cuisinePreference := by
  cases ns <;> simp only [applyStep] <;> split <;> rfl

lemma applyStep_location (ctx : BookingContext) (ns : Option String) :
    (applyStep ctx ns).location = ctx.location := by
  cases ns <;> simp only [applyStep] <;> split <;> rfl

lemma applyStep_specialRequests (ctx : BookingContext) (ns : Option String) :
    (applyStep ctx ns).specialRequests = ctx.specialRequests := by
  cases ns <;> simp only [applyStep] <;> split <;> rfl

lemma applyStep_seatingPreference (ctx : BookingContext) (ns : Option String) :
    (applyStep ctx ns).seatingPreference = ctx.seatingPreference := by
  cases ns <;> simp only [applyStep] <;> split <;> rfl

lemma applyStep_weatherInfo (ctx : BookingContext) (ns : Option String) :
    (applyStep ctx ns).weatherInfo = ctx.weatherInfo := by
  cases ns <;> simp only [applyStep] <;> split <;> rfl

lemma updateContext_customerName (ctx : BookingContext) (parsed : ParsedReply) :
    (updateContext ctx parsed).customerName =
      (if strTruthy (extField ExtractedData.customerName parsed) then
        extField ExtractedData.customerName parsed
      else ctx.customerName) := by
  obtain ⟨ed, ns, ic⟩ := parsed
  cases ed <;>
    simp [updateContext, applyStep_customerName, applyExtracted, extField, strTruthy]

lemma updateContext_numberOfGuests (ctx : BookingContext) (parsed : ParsedReply) :
    (updateContext ctx parsed).numberOfGuests =
      (match extGuests parsed with
       | some n => if n == 0 then ctx.numberOfGuests else some (min 20 (max 1 n))
       | none => ctx.numberOfGuests) := by
  obtain ⟨ed, ns, ic⟩ := parsed
  cases ed <;>
    simp [updateContext, applyStep_numberOfGuests, applyExtracted, extGuests]

lemma updateContext_bookingDate (ctx : BookingContext) (parsed : ParsedReply) :
    (updateContext ctx parsed).bookingDate =
      (if strTruthy (extField ExtractedData.bookingDate parsed) then
        extField ExtractedData.bookingDate parsed
      else ctx.bookingDate) := by
  obtain ⟨ed, ns, ic⟩ := parsed
  cases ed <;>
    simp [updateContext, applyStep_bookingDate, applyExtracted, extField, strTruthy]

lemma updateContext_bookingTime (ctx : BookingContext) (parsed : ParsedReply) :
    (updateContext ctx parsed).bookingTime =
      (if strTruthy (extField ExtractedData.bookingTime parsed) then
        extField ExtractedData.bookingTime parsed
      else ctx.bookingTime) := by
  obtain ⟨ed, ns, ic⟩ := parsed
  cases ed <;>
    simp [updateContext, applyStep_bookingTime, applyExtracted, extField, strTruthy]

lemma updateContext_cuisinePreference (ctx : BookingContext) (parsed : ParsedReply) :
    (updateContext ctx parsed).cuisinePreference =
      (if strTruthy (extField ExtractedData.cuisinePreference parsed) then
        extField ExtractedData.cuisinePreference parsed
      else ctx.cuisinePreference) := by
  obtain ⟨ed, ns, ic⟩ := parsed
  cases ed <;>
    simp [updateContext, applyStep_cuisinePreference, applyExtracted, extField, strTruthy]

lemma updateContext_location (ctx : BookingContext) (parsed : ParsedReply) :
    (updateContext ctx parsed).location =
      (if strTruthy (extField ExtractedData.location parsed) then
        extField ExtractedData.location parsed
      else ctx.location) := by
  obtain ⟨ed, ns, ic⟩ := parsed
  cases ed <;>
    simp [updateContext, applyStep_location, applyExtracted, extField, strTruthy]

lemma updateContext_specialRequests (ctx : BookingContext) (parsed : ParsedReply) :
    (updateContext ctx parsed).specialRequests =
      (if strTruthy (extField ExtractedData.specialRequests parsed) then
        extField ExtractedData.specialRequests parsed
      else ctx.specialRequests) := by
  obtain ⟨ed, ns, ic⟩ := parsed
  cases ed <;>
    simp [updateContext, applyStep_specialRequests, applyExtracted, extField, strTruthy]

lemma updateContext_seatingPreference (ctx : BookingContext) (parsed : ParsedReply) :
    (updateContext ctx parsed).seatingPreference = ctx.seatingPreference := by
  obtain ⟨ed, ns, ic⟩ := parsed
  cases ed <;>
    simp [updateContext, applyStep_seatingPreference, applyExtracted]

lemma updateContext_weatherInfo (ctx : BookingContext) (parsed : ParsedReply) :
    (updateContext ctx parsed).weatherInfo = ctx.weatherInfo := by
  obtain ⟨ed, ns, ic⟩ := parsed
  cases ed <;>
    simp [updateContext, applyStep_weatherInfo, applyExtracted]

lemma updateContext_step (ctx : BookingContext) (parsed : ParsedReply) :
    (updateContext ctx parsed).step =
      (match parsed.nextStep with
       | some s => if !(s == "") && isValidStep s then s else ctx.step
       | none => ctx.step) := by
  obtain ⟨ed, ns, ic⟩ := parsed
  cases ed <;> cases ns <;>
    simp only [updateContext, applyStep, applyExtracted] <;> split <;> rfl

/-! ## Claims about the context merge -/

/-- C6: merging any context with an empty extraction — whether the
`extractedData` object is absent altogether or present with every field
absent — and no proposed next step returns the context unchanged,
field for field. -/
theorem updateContext_empty_extraction_id (ctx : BookingContext) :
    updateContext ctx ⟨none, none, none⟩ = ctx ∧
    updateContext ctx ⟨some ⟨none, none, none, none, none, none, none⟩, none, none⟩ = ctx :=
  ⟨rfl, rfl⟩

/-- C5: the merge leaves every already-populated optional field unchanged
whenever the extraction holds no value for it (the `extractedData` object or
the field absent/null, or the field the empty string); in particular a
context with location `"Paris"` merged against an extraction without a
location keeps location `"Paris"` (see the witness). -/
theorem updateContext_preserves_populated (ctx : BookingContext) (parsed : ParsedReply) :
    ((extField ExtractedData.customerName parsed = none ∨
        extField ExtractedData.customerName parsed = some "") →
      (updateContext ctx parsed).customerName = ctx.customerName) ∧
    (extGuests parsed = none →
      (updateContext ctx parsed).numberOfGuests = ctx.numberOfGuests) ∧
    ((extField ExtractedData.bookingDate parsed = none ∨
        extField ExtractedData.bookingDate parsed = some "") →
      (updateContext ctx parsed).bookingDate = ctx.bookingDate) ∧
    ((extField ExtractedData.bookingTime parsed = none ∨
        extField ExtractedData.bookingTime parsed = some "") →
      (updateContext ctx parsed).bookingTime = ctx.bookingTime) ∧
    ((extField ExtractedData.cuisinePreference parsed = none ∨
        extField ExtractedData.cuisinePreference parsed = some "") →
      (updateContext ctx parsed).cuisinePreference = ctx.cuisinePreference) ∧
    ((extField ExtractedData.location parsed = none ∨
        extField ExtractedData.location parsed = some "") →
      (updateContext ctx parsed).location = ctx.location) ∧
    ((extField ExtractedData.specialRequests parsed = none ∨
        extField ExtractedData.specialRequests parsed = some "") →
      (updateContext ctx parsed).specialRequests = ctx.specialRequests) := by
  refine ⟨?_, ?_, ?_, ?_, ?_, ?_, ?_⟩ <;> intro h
  · rw [updateContext_customerName]; rcases h with h | h <;> rw [h] <;> rfl
  · rw [updateContext_numberOfGuests, h]
  · rw [updateContext_bookingDate]; rcases h with h | h <;> rw [h] <;> rfl
  · rw [updateContext_bookingTime]; rcases h with h | h <;> rw [h] <;> rfl
  · rw [updateContext_cuisinePreference]; rcases h with h | h <;> rw [h] <;> rfl
  · rw [updateContext_location]; rcases h with h | h <;> rw [h] <;> rfl
  · rw [updateContext_specialRequests]; rcases h with h | h <;> rw [h] <;> rfl

/-- Witness for C5: a context holding location `"Paris"` merged against an
extraction that carries a name but no location keeps `location = "Paris"`. -/
theorem updateContext_preserves_populated_witness :
    (updateContext
        ⟨none, none, none, none, none, some "Paris", none, none, none, "collect_location"⟩
        ⟨some ⟨some "Ana", none, none, none, none, none, none⟩, none, none⟩).location
      = some "Paris" :=
  (updateContext_preserves_populated
    ⟨none, none, none, none, none, some "Paris", none, none, none, "collect_location"⟩
    ⟨some ⟨some "Ana", none, none, none, none, none, none⟩, none, none⟩).2.2.2.2.2.1
    (Or.inl rfl)

/-- C7: a proposed next step is accepted by the merge exactly when it belongs
to the twelve-value step enumeration; any other proposal leaves the step
unchanged (and the merge still returns a context — silent rejection). -/
theorem updateContext_step_validation (ctx : BookingContext) (parsed : ParsedReply)
    (s : String) (h : parsed.nextStep = some s) :
    ((isValidStep s = true → (updateContext ctx parsed).step = s) ∧
     (isValidStep s = false → (updateContext ctx parsed).step = ctx.step)) ∧
    (isValidStep s = true ↔ s ∈ validSteps) ∧
    validSteps.length = 12 := by
  refine ⟨⟨?_, ?_⟩, ?_, rfl⟩
  · intro hv
    have hne : (s == "") = false := by
      cases hsb : (s == "") with
      | false => rfl
      | true =>
        have : s = "" := by simpa using hsb
        subst this
        exact absurd hv (by decide)
    rw [updateContext_step, h]
    simp [hne, hv]
  · intro hv
    rw [updateContext_step, h]
    simp [hv]
  · simp [isValidStep, List.contains, List.elem_iff]

/-- Witness for C7: `"collect_date"` is accepted, `"bogus_step"` is silently
rejected. -/
theorem updateContext_step_validation_witness :
    (updateContext
        ⟨none, none, none, none, none, none, none, none, none, "greeting"⟩
        ⟨none, some "collect_date", none⟩).step = "collect_date" ∧
    (updateContext
        ⟨none, none, none, none, none, none, none, none, none, "greeting"⟩
        ⟨none, some "bogus_step", none⟩).step = "greeting" :=
  ⟨(updateContext_step_validation _ ⟨none, some "collect_date", none⟩ _ rfl).1.1 (by decide),
   (updateContext_step_validation _ ⟨none, some "bogus_step", none⟩ _ rfl).1.2 (by decide)⟩

/-- C4: both assignment sites for the guest count — the model-extraction merge
and the fallback parser — either leave the stored count untouched or assign a
value inside [1, 20]. -/
theorem guestCount_clamped (ctx : BookingContext) (parsed : ParsedReply)
    (msg : String) (ctx2 : BookingContext) :
    ((updateContext ctx parsed).numberOfGuests = ctx.numberOfGuests ∨
      ∃ g : Int, (updateContext ctx parsed).numberOfGuests = some g ∧ 1 ≤ g ∧ g ≤ 20) ∧
    ((createFallbackResponse msg ctx2).context.numberOfGuests = ctx2.numberOfGuests ∨
      ∃ g : Int,
        (createFallbackResponse msg ctx2).context.numberOfGuests = some g ∧ 1 ≤ g ∧ g ≤ 20) := by
  constructor
  · rw [updateContext_numberOfGuests]
    rcases hg : extGuests parsed with _ | n
    · left; rfl
    · rcases hz : (n == 0) with _ | _
      · right
        refine ⟨min 20 (max 1 n), by simp [hz], ?_, ?_⟩
        · exact le_min (by norm_num) (le_max_left _ _)
        · exact min_le_left _ _
      · left; simp [hz]
  · simp only [createFallbackResponse]
    split
    · left; rfl
    · split
      · left; rfl
      · split
        · right
          refine ⟨_, rfl, ?_, ?_⟩
          · exact le_min (by norm_num) (le_max_left _ _)
          · exact min_le_left _ _
        · left; rfl

/-- C10 counterexample: an extracted guest count of −3 — not strictly
positive — still passes the truthiness guard and is clamped up and assigned
(the stored count changes from absent to 1), refuting "only a strictly
positive extracted number is clamped into [1,20] and assigned". -/
theorem negativeGuests_assigned :
    (updateContext
        ⟨none, none, none, none, none, none, none, none, none, "collect_guests"⟩
        ⟨some ⟨none, some (-3), none, none, none, none, none⟩, none, none⟩).numberOfGuests
      = some 1 ∧ ¬ (0 < (-3 : Int)) := by
  constructor
  · rfl
  · decide

/-- C10 (amended): an extracted guest count of exactly 0 is discarded by the
truthiness guard (the stored count is unchanged, not clamped up to 1); any
nonzero extracted count — positive or negative — is clamped into [1, 20] and
assigned. -/
theorem zeroGuests_discarded (ctx : BookingContext) (parsed : ParsedReply) :
    (extGuests parsed = some 0 →
      (updateContext ctx parsed).numberOfGuests = ctx.numberOfGuests) ∧
    (∀ n : Int, extGuests parsed = some n → n ≠ 0 →
      (updateContext ctx parsed).numberOfGuests = some (min 20 (max 1 n))) := by
  constructor
  · intro h
    rw [updateContext_numberOfGuests, h]
    rfl
  · intro n h hn
    rw [updateContext_numberOfGuests, h]
    simp [hn]

/-- Witness for C10 (amended): with a stored count of 5, an extracted 0 is
discarded, while an extracted 25 is clamped to 20. -/
theorem zeroGuests_discarded_witness :
    (updateContext
        ⟨none, some 5, none, none, none, none, none, none, none, "collect_guests"⟩
        ⟨some ⟨none, some 0, none, none, none, none, none⟩, none, none⟩).numberOfGuests
      = some 5 ∧
    (updateContext
        ⟨none, some 5, none, none, none, none, none, none, none, "collect_guests"⟩
        ⟨some ⟨none, some 25, none, none, none, none, none⟩, none, none⟩).numberOfGuests
      = some 20 := by
  constructor
  · exact (zeroGuests_discarded
      ⟨none, some 5, none, none, none, none, none, none, none, "collect_guests"⟩
      ⟨some ⟨none, some 0, none, none, none, none, none⟩, none, none⟩).1 rfl
  · have h := (zeroGuests_discarded
      ⟨none, some 5, none, none, none, none, none, none, none, "collect_guests"⟩
      ⟨some ⟨none, some 25, none, none, none, none, none⟩, none, none⟩).2 25 rfl (by decide)
    rw [h]
    decide

/-! ## Claims about the weather resolver -/

/-- The conditions under which `getWeatherForDate` resorts to the synthetic
summary: missing credential, past date, or a throwing upstream call (the one
actually selected by the day difference). -/
def fallbackTriggered (hasApiKey : Bool) (diffDays : Int)
    (forecastCall estimateCall : Except Unit (Option WeatherInfo)) : Prop :=
  hasApiKey = false ∨ diffDays < 0 ∨
  (diffDays ≤ 5 ∧ ∃ u, forecastCall = .error u) ∨
  (5 < diffDays ∧ ∃ u, estimateCall = .error u)

lemma getWeatherForDate_fallback (hasApiKey : Bool) (diffDays : Int)
    (fc ec : Except Unit (Option WeatherInfo)) (date : String)
    (h : fallbackTriggered hasApiKey diffDays fc ec) :
    getWeatherForDate hasApiKey diffDays fc ec date = some (getMockWeather date) := by
  unfold getWeatherForDate
  rcases h with h | h | ⟨h5, u, he⟩ | ⟨h5, u, he⟩
  · subst h
    rfl
  · cases hasApiKey
    · rfl
    · simp [h]
  · cases hasApiKey
    · rfl
    · by_cases hd : diffDays < 0
      · simp [hd]
      · simp [hd, h5, he]
  · cases hasApiKey
    · rfl
    · have hd : ¬ diffDays < 0 := by omega
      have h5n : ¬ diffDays ≤ 5 := by omega
      simp [hd, h5n, he]

/-- C3: whenever no upstream credential is configured, or the requested date
lies strictly before the current calendar day, or the selected upstream call
throws, the weather resolver returns the synthetic summary
`getMockWeather date` — a pure function of the date string — so any two such
resolutions of the same date string yield identical summaries. -/
theorem weather_fallback_deterministic (date : String)
    (k₁ : Bool) (d₁ : Int) (f₁ e₁ : Except Unit (Option WeatherInfo))
    (k₂ : Bool) (d₂ : Int) (f₂ e₂ : Except Unit (Option WeatherInfo))
    (h₁ : fallbackTriggered k₁ d₁ f₁ e₁) (h₂ : fallbackTriggered k₂ d₂ f₂ e₂) :
    getWeatherForDate k₁ d₁ f₁ e₁ date = some (getMockWeather date) ∧
    getWeatherForDate k₁ d₁ f₁ e₁ date = getWeatherForDate k₂ d₂ f₂ e₂ date := by
  have g₁ := getWeatherForDate_fallback k₁ d₁ f₁ e₁ date h₁
  have g₂ := getWeatherForDate_fallback k₂ d₂ f₂ e₂ date h₂
  exact ⟨g₁, g₁.trans g₂.symm⟩

/-- Witness for C3: a missing credential and a past date with a throwing
upstream produce the same synthetic summary for `"2025-12-25"`. -/
theorem weather_fallback_deterministic_witness :
    getWeatherForDate false 3 (.ok none) (.ok none) "2025-12-25" =
      some (getMockWeather "2025-12-25") ∧
    getWeatherForDate false 3 (.ok none) (.ok none) "2025-12-25" =
      getWeatherForDate true (-1) (.error ()) (.ok none) "2025-12-25" :=
  weather_fallback_deterministic "2025-12-25" false 3 (.ok none) (.ok none)
    true (-1) (.error ()) (.ok none)
    (Or.inl rfl) (Or.inr (Or.inl (by norm_num)))

/-- Does every space-separated word of `s` begin with an uppercase letter? -/
def isCapPerWord (s : String) : Bool :=
  (jsSplit s ' ').all (fun w =>
    match w.data with
    | [] => true
    | c :: _ => c.isUpper)

/-- C8 counterexample: on the synthetic path the description for
`"2024-01-01"` is the fixed template `"Clear sky"`, whose second word starts
with a lowercase letter — so not every produced `WeatherSummary` has a
capitalized-per-word description. -/
theorem mock_description_not_capitalized :
    (getMockWeather "2024-01-01").description = "Clear sky" ∧
    isCapPerWord (getMockWeather "2024-01-01").description = false := by
  constructor
  · rfl
  · decide

/-- C8 (amended): forecast-path descriptions are `capitalizeWords` renderings
of the upstream text, estimate-path descriptions are such renderings suffixed
with `" (estimate)"`, and `capitalizeWords` uppercases the first character of
every space-separated word; the synthetic path instead returns one of four
fixed sentence-case template strings (only their first word capitalized). -/
theorem descriptions_capitalization (list : List ForecastItem) (date : String)
    (cw : CurrentWeather) (mdate : String) (s : String) :
    (∀ w, getForecastWeather list date = some w →
      ∃ raw, w.description = capitalizeWords raw) ∧
    (getCurrentWeatherAsEstimate cw).description =
      capitalizeWords cw.wDescription ++ " (estimate)" ∧
    ((getMockWeather mdate).description ∈
      ["Clear sky", "Partly cloudy", "Light rain", "Sunny and warm"]) ∧
    (∀ w ∈ jsSplit s ' ', capWord w = "" ∨
      ∃ c rest, w.data = c :: rest ∧ (capWord w).data = c.toUpper :: rest) := by
  refine ⟨?_, rfl, ?_, ?_⟩
  · intro w hw
    unfold getForecastWeather at hw
    cases hsel : selectForecast list date with
    | none => rw [hsel] at hw; exact Option.noConfusion hw
    | some f =>
      rw [hsel] at hw
      cases hw
      exact ⟨f.wDescription, rfl⟩
  · simp only [getMockWeather]
    split <;> simp
  · intro w _
    obtain ⟨wd⟩ := w
    cases wd with
    | nil => exact Or.inl rfl
    | cons c rest => exact Or.inr ⟨c, rest, rfl, rfl⟩

/-- Witness for C8 (amended): a concrete forecast list with raw description
`"light rain"` yields the summary description `"Light Rain"`, a
`capitalizeWords` rendering. -/
theorem descriptions_capitalization_witness :
    ∃ raw,
      (⟨"Rain", 20, "Light Rain", "10d", some 50, some 3⟩ : WeatherInfo).description =
        capitalizeWords raw :=
  (descriptions_capitalization
    [⟨"2031-01-01 12:00:00", "Rain", "light rain", "10d", 20, 50, 3⟩] "2031-01-01"
    ⟨"Clear", "clear sky", "01d", 25, 40, 2⟩ "2024-01-01" "light rain").1
    ⟨"Rain", 20, "Light Rain", "10d", some 50, some 3⟩ (by decide)

/-! ## Substring lemmas for the seating rationale -/

lemma listHasPfx_nil (s : List Char) : listHasPfx s [] = true := by
  cases s <;> rfl

lemma listHasPfx_append (p s : List Char) : listHasPfx (p ++ s) p = true := by
  induction p with
  | nil => exact listHasPfx_nil s
  | cons c cs ih => simp [listHasPfx, ih]

lemma listHasPfx_extend (s p z : List Char) (h : listHasPfx s p = true) :
    listHasPfx (s ++ z) p = true := by
  induction p generalizing s with
  | nil => exact listHasPfx_nil _
  | cons b bs ih =>
    cases s with
    | nil => simp [listHasPfx] at h
    | cons a as =>
      simp only [listHasPfx, Bool.and_eq_true] at h
      simp only [List.cons_append, listHasPfx, Bool.and_eq_true]
      exact ⟨h.1, ih as h.2⟩

lemma listHasPfx_append_left (a b c : List Char) :
    listHasPfx (a ++ b) (a ++ c) = listHasPfx b c := by
  induction a with
  | nil => rfl
  | cons x xs ih => simp [listHasPfx, ih]

lemma listHasSub_of_pfx (s p : List Char) (h : listHasPfx s p = true) :
    listHasSub s p = true := by
  cases s with
  | nil =>
    cases p with
    | nil => rfl
    | cons _ _ => simp [listHasPfx] at h
  | cons a as => simp [listHasSub, h]

lemma listHasSub_of_append_pfx (x rest p : List Char) (h : listHasPfx rest p = true) :
    listHasSub (x ++ rest) p = true := by
  induction x with
  | nil => exact listHasSub_of_pfx rest p h
  | cons c cs ih => simp [listHasSub, ih]

lemma toList_append (a b : String) : (a ++ b).toList = a.toList ++ b.toList := rfl

/-! ## Claim about the seating rule -/

/-- C2: the seating rule is a total function into the three-valued preference
type; its preference follows the documented first-match precedence
(rain/storm/snow → indoor, then `> 30 °C` → indoor, then `< 10 °C` → indoor,
then clear/sunny → outdoor, else no preference); in every branch that quotes
the temperature the rationale quotes `Math.round` of it, and that rounding is
to a nearest integer (within one half). -/
theorem seating_rule (weatherCondition : String) (t : ℚ) :
    ((generateSeatingResponse weatherCondition t).preference =
      (if strIncludes (jsToLower weatherCondition) "rain" ||
          strIncludes (jsToLower weatherCondition) "storm" ||
          strIncludes (jsToLower weatherCondition) "snow" then Pref.indoor
       else if t > 30 then Pref.indoor
       else if t < 10 then Pref.indoor
       else if strIncludes (jsToLower weatherCondition) "clear" ||
          strIncludes (jsToLower weatherCondition) "sunny" then Pref.outdoor
       else Pref.no_preference)) ∧
    ((strIncludes (jsToLower weatherCondition) "rain" ||
        strIncludes (jsToLower weatherCondition) "storm" ||
        strIncludes (jsToLower weatherCondition) "snow") = false →
      strIncludes (generateSeatingResponse weatherCondition t).response
        (toString (jsRound t) ++ "°C") = true) ∧
    |(jsRound t : ℚ) - t| ≤ 1 / 2 := by
  refine ⟨?_, ?_, ?_⟩
  · simp only [generateSeatingResponse]
    split_ifs <;> rfl
  · intro hbad
    simp only [generateSeatingResponse, hbad, Bool.false_eq_true, if_false]
    split_ifs <;>
      simp only [strIncludes, toList_append, List.append_assoc] <;>
      refine listHasSub_of_append_pfx _ _ _ ?_ <;>
      rw [listHasPfx_append_left]
    · decide
    · decide
    · exact listHasPfx_extend _ _ _ (by decide)
    · decide
  · have h1 : ((⌊t + 1 / 2⌋ : ℤ) : ℚ) ≤ t + 1 / 2 := Int.floor_le _
    have h2 : t + 1 / 2 - 1 < ((⌊t + 1 / 2⌋ : ℤ) : ℚ) := Int.sub_one_lt_floor _
    rw [jsRound, abs_le]
    constructor <;> linarith

/-- Witness for C2: condition `"Clouds"` at 20 °C yields no preference, and
the rationale quotes the rounded temperature. -/
theorem seating_rule_witness :
    (generateSeatingResponse "Clouds" 20).preference = Pref.no_preference ∧
    strIncludes (generateSeatingResponse "Clouds" 20).response
      (toString (jsRound 20) ++ "°C") = true := by
  have h := seating_rule "Clouds" 20
  constructor
  · rw [h.1]
    decide
  · exact h.2.1 (by decide)

/-! ## Claim about the booking store -/

lemma storeGet_storeSet_same (s : Store) (id : String) (b : Bkg) :
    storeGet (storeSet s id b) id = some b := by
  induction s with
  | nil => simp [storeSet, storeGet, List.find?]
  | cons p rest ih =>
    by_cases h : (p.1 == id) = true
    · simp [storeSet, storeGet, h, List.find?]
    · simp only [storeSet, h, Bool.false_eq_true, if_false]
      simpa [storeGet, List.find?, h] using ih

lemma storeGet_storeSet_ne (s : Store) (id id2 : String) (b : Bkg)
    (hne : id2 ≠ id) :
    storeGet (storeSet s id b) id2 = storeGet s id2 := by
  have hbe : (id == id2) = false := by
    simp only [beq_eq_false_iff_ne, ne_eq]
    exact fun h => hne h.symm
  induction s with
  | nil => simp [storeSet, storeGet, List.find?, hbe]
  | cons p rest ih =>
    by_cases h : (p.1 == id) = true
    · have hp : p.1 = id := by simpa using h
      have hp2 : (p.1 == id2) = false := by
        simp only [hp, beq_eq_false_iff_ne, ne_eq]
        exact fun h2 => hne h2.symm
      simp [storeSet, storeGet, h, List.find?, hbe, hp2]
    · simp only [storeSet, h, Bool.false_eq_true, if_false]
      by_cases h2 : (p.1 == id2) = true
      · simp [storeGet, List.find?, h2]
      · simp only [storeGet, List.find?, h2] at ih ⊢
        exact ih

/-- C9: cancelling an existing booking returns `true`, rewrites exactly its
status to `"cancelled"` (all other fields intact), and keeps the record
retrievable under its id while leaving every other id untouched; cancelling
an absent id returns `false` and leaves the store unchanged. -/
theorem deleteBooking_soft_cancel (s : Store) (id : String) :
    (∀ b, storeGet s id = some b →
      (deleteBooking s id).1 = true ∧
      storeGet (deleteBooking s id).2 id = some { b with status := "cancelled" } ∧
      (∀ id2, id2 ≠ id →
        storeGet (deleteBooking s id).2 id2 = storeGet s id2)) ∧
    (storeGet s id = none →
      (deleteBooking s id).1 = false ∧ (deleteBooking s id).2 = s) := by
  constructor
  · intro b hb
    refine ⟨?_, ?_, ?_⟩
    · simp [deleteBooking, hb]
    · simp only [deleteBooking, hb]
      exact storeGet_storeSet_same s id _
    · intro id2 hne
      simp only [deleteBooking, hb]
      exact storeGet_storeSet_ne s id id2 _ hne
  · intro hn
    simp [deleteBooking, hn]

/-- Witness for C9: in a two-booking store, cancelling `"BK-AAAAAAAA"`
returns `true`, flips only its status, and leaves `"BK-BBBBBBBB"` untouched;
cancelling the absent `"BK-MISSING0"` returns `false` on the original
store. -/
theorem deleteBooking_soft_cancel_witness :
    (deleteBooking
        [("BK-AAAAAAAA",
          ⟨"BK-AAAAAAAA", "Ana", 2, "2031-01-01", "7:00 PM", "Italian", "Paris",
           none, none, Pref.indoor, "confirmed", "t0"⟩),
         ("BK-BBBBBBBB",
          ⟨"BK-BBBBBBBB", "Bob", 4, "2031-02-02", "8:00 PM", "Indian", "London",
           none, none, Pref.outdoor, "confirmed", "t1"⟩)]
        "BK-AAAAAAAA").1 = true ∧
    storeGet
      (deleteBooking
        [("BK-AAAAAAAA",
          ⟨"BK-AAAAAAAA", "Ana", 2, "2031-01-01", "7:00 PM", "Italian", "Paris",
           none, none, Pref.indoor, "confirmed", "t0"⟩),
         ("BK-BBBBBBBB",
          ⟨"BK-BBBBBBBB", "Bob", 4, "2031-02-02", "8:00 PM", "Indian", "London",
           none, none, Pref.outdoor, "confirmed", "t1"⟩)]
        "BK-AAAAAAAA").2 "BK-AAAAAAAA" =
      some ⟨"BK-AAAAAAAA", "Ana", 2, "2031-01-01", "7:00 PM", "Italian", "Paris",
            none, none, Pref.indoor, "cancelled", "t0"⟩ ∧
    storeGet
      (deleteBooking
        [("BK-AAAAAAAA",
          ⟨"BK-AAAAAAAA", "Ana", 2, "2031-01-01", "7:00 PM", "Italian", "Paris",
           none, none, Pref.indoor, "confirmed", "t0"⟩),
         ("BK-BBBBBBBB",
          ⟨"BK-BBBBBBBB", "Bob", 4, "2031-02-02", "8:00 PM", "Indian", "London",
           none, none, Pref.outdoor, "confirmed", "t1"⟩)]
        "BK-AAAAAAAA").2 "BK-BBBBBBBB" =
      some ⟨"BK-BBBBBBBB", "Bob", 4, "2031-02-02", "8:00 PM", "Indian", "London",
            none, none, Pref.outdoor, "confirmed", "t1"⟩ := by
  have h := (deleteBooking_soft_cancel
    [("BK-AAAAAAAA",
      ⟨"BK-AAAAAAAA", "Ana", 2, "2031-01-01", "7:00 PM", "Italian", "Paris",
       none, none, Pref.indoor, "confirmed", "t0"⟩),
     ("BK-BBBBBBBB",
      ⟨"BK-BBBBBBBB", "Bob", 4, "2031-02-02", "8:00 PM", "Indian", "London",
       none, none, Pref.outdoor, "confirmed", "t1"⟩)]
    "BK-AAAAAAAA").1
    ⟨"BK-AAAAAAAA", "Ana", 2, "2031-01-01", "7:00 PM", "Italian", "Paris",
     none, none, Pref.indoor, "confirmed", "t0"⟩ (by decide)
  refine ⟨h.1, h.2.1, ?_⟩
  have h2 := h.2.2 "BK-BBBBBBBB" (by decide)
  rw [h2]
  decide

/-! ## Claim about the confirmation branch of the chat route -/

lemma isLowerHex_toUpper (c : Char) (h : isLowerHex c = true) :
    (c.toUpper.isUpper || c.toUpper.isDigit) = true := by
  have hn : (48 ≤ c.toNat ∧ c.toNat ≤ 57) ∨ (97 ≤ c.toNat ∧ c.toNat ≤ 102) := by
    unfold isLowerHex at h
    simp only [Char.isDigit, Bool.or_eq_true, Bool.and_eq_true, decide_eq_true_eq] at h
    rcases h with ⟨h1, h2⟩ | ⟨h1, h2⟩
    · exact Or.inl ⟨h1, h2⟩
    · exact Or.inr ⟨h1, h2⟩
  have hc : Char.ofNat c.toNat = c := Char.ofNat_toNat c
  rw [← hc]
  set n := c.toNat with hdef
  clear_value n
  rcases hn with ⟨h1, h2⟩ | ⟨h1, h2⟩ <;> interval_cases n <;> decide

lemma bookingId_format (uuid : String) (hlen : 8 ≤ uuid.toList.length)
    (hhex : ∀ c ∈ uuid.toList.take 8, isLowerHex c = true) :
    matchesBookingIdFormat
      ("BK-" ++ String.mk ((uuid.toList.take 8).map Char.toUpper)) = true := by
  have hdata : ("BK-" ++ String.mk ((uuid.toList.take 8).map Char.toUpper)).toList
      = 'B' :: 'K' :: '-' :: (uuid.toList.take 8).map Char.toUpper := rfl
  unfold matchesBookingIdFormat
  rw [hdata]
  show (((uuid.toList.take 8).map Char.toUpper).length == 8 &&
      ((uuid.toList.take 8).map Char.toUpper).all (fun c => c.isUpper || c.isDigit)) = true
  rw [Bool.and_eq_true]
  constructor
  · have hl : ((uuid.toList.take 8).map Char.toUpper).length = 8 := by
      rw [List.length_map, List.length_take]
      omega
    rw [hl]
    rfl
  · rw [List.all_eq_true]
    intro c hc
    rw [List.mem_map] at hc
    obtain ⟨c0, hc0, rfl⟩ := hc
    exact isLowerHex_toUpper c0 (hhex c0 hc0)

/-- C1: with the context on `confirm_booking` and a message containing a
confirmation keyword, the chat operation creates a booking with
`status = "confirmed"` and an identifier matching `BK-[A-Z0-9]{8}`, stores it
under that identifier, substitutes the documented default for every
still-missing context field, moves the returned context to
`booking_complete`, and returns `bookingComplete = true` together with the
booking.  (`uuid` models `randomUUID()`: at least 8 characters, the first 8
drawn from the lowercase hex alphabet.) -/
theorem chat_confirm_creates_booking
    (message : String) (context : BookingContext) (weather : Option WeatherInfo)
    (today now uuid : String) (fmtDate : String → String) (store : Store)
    (hstep : context.step = "confirm_booking")
    (hmsg : isConfirmedMsg message = true)
    (hlen : 8 ≤ uuid.toList.length)
    (hhex : ∀ c ∈ uuid.toList.take 8, isLowerHex c = true) :
    ∃ resp store2,
      chatHandler message context weather today now uuid fmtDate store =
        ChatOutcome.reply resp store2 ∧
      ∃ b, resp.booking = some b ∧
        b.status = "confirmed" ∧
        matchesBookingIdFormat b.bookingId = true ∧
        resp.context.step = "booking_complete" ∧
        resp.bookingComplete = some true ∧
        storeGet store2 b.bookingId = some b ∧
        (context.customerName = none → b.customerName = "Guest") ∧
        (context.numberOfGuests = none → b.numberOfGuests = 2) ∧
        (context.bookingDate = none → b.bookingDate = today) ∧
        (context.bookingTime = none → b.bookingTime = "7:00 PM") ∧
        (context.cuisinePreference = none → b.cuisinePreference = "Any") ∧
        (context.location = none → b.location = "Unknown") ∧
        (context.seatingPreference = none → b.seatingPreference = Pref.no_preference) := by
  obtain ⟨cn, ng, bd, bt, cp, loc, sr, sp, wi, stp⟩ := context
  simp only at hstep
  subst hstep
  have c1 : (("confirm_booking" : String) == "fetch_weather") = false := by decide
  have c2 : (("confirm_booking" : String) == "suggest_seating") = false := by decide
  have c3 : (("confirm_booking" : String) == "collect_special_requests") = false := by decide
  have c4 : (("confirm_booking" : String) == "confirm_booking") = true := by decide
  simp only [chatHandler, c1, c2, c3, c4, hmsg, Bool.false_and, Bool.true_and,
    Bool.and_self, Bool.false_eq_true, if_false, if_true, reduceIte]
  refine ⟨_, _, rfl, _, rfl, rfl, ?_, rfl, rfl, ?_, ?_, ?_, ?_, ?_, ?_, ?_, ?_⟩
  · exact bookingId_format uuid hlen hhex
  · exact storeGet_storeSet_same store _ _
  · intro h; subst h; rfl
  · intro h; subst h; rfl
  · intro h; subst h; rfl
  · intro h; subst h; rfl
  · intro h; subst h; rfl
  · intro h; subst h; rfl
  · intro h; subst h; rfl

/-- Witness for C1: an empty context on `confirm_booking` and the message
`"yes, confirm"` produce a stored, confirmed booking built entirely from the
documented defaults. -/
theorem chat_confirm_creates_booking_witness :
    ∃ resp store2,
      chatHandler "yes, confirm"
          ⟨none, none, none, none, none, none, none, none, none, "confirm_booking"⟩
          none "2026-10-11" "2026-10-11T10:00:00Z" "a1b2c3d4e5f6" (fun d => d) [] =
        ChatOutcome.reply resp store2 ∧
      ∃ b, resp.booking = some b ∧
        b.status = "confirmed" ∧
        matchesBookingIdFormat b.bookingId = true ∧
        resp.context.step = "booking_complete" ∧
        resp.bookingComplete = some true ∧
        storeGet store2 b.bookingId = some b ∧
        ((⟨none, none, none, none, none, none, none, none, none,
            "confirm_booking"⟩ : BookingContext).customerName = none →
          b.customerName = "Guest") ∧
        ((⟨none, none, none, none, none, none, none, none, none,
            "confirm_booking"⟩ : BookingContext).numberOfGuests = none →
          b.numberOfGuests = 2) ∧
        ((⟨none, none, none, none, none, none, none, none, none,
            "confirm_booking"⟩ : BookingContext).bookingDate = none →
          b.bookingDate = "2026-10-11") ∧
        ((⟨none, none, none, none, none, none, none, none, none,
            "confirm_booking"⟩ : BookingContext).bookingTime = none →
          b.bookingTime = "7:00 PM") ∧
        ((⟨none, none, none, none, none, none, none, none, none,
            "confirm_booking"⟩ : BookingContext).cuisinePreference = none →
          b.cuisinePreference = "Any") ∧
        ((⟨none, none, none, none, none, none, none, none, none,
            "confirm_booking"⟩ : BookingContext).location = none →
          b.location = "Unknown") ∧
        ((⟨none, none, none, none, none, none, none, none, none,
            "confirm_booking"⟩ : BookingContext).seatingPreference = none →
          b.seatingPreference = Pref.no_preference) :=
  chat_confirm_creates_booking "yes, confirm"
    ⟨none, none, none, none, none, none, none, none, none, "confirm_booking"⟩
    none "2026-10-11" "2026-10-11T10:00:00Z" "a1b2c3d4e5f6" (fun d => d) []
    rfl (by decide) (by decide) (by decide)

end Booking
